import Mathlib

/-!
Shallow embedding of `garage_door/garage_door_server.py`.

The hardware and clock are modelled as a read-only environment
(`ServerEnv`): `input pin` is the raw value `GPIO.input(pin)` returns,
`hostname` is the configured host identifier and `now` the formatted
local timestamp `datetime.datetime.now().strftime(...)` would produce.

Relay actuation is modelled as an explicit trace of `GPIO.output` calls
(`relayWrites`).  In the source the two `GPIO.output(relay_pin, ...)`
lines inside `control_garage` are commented out, so every branch of the
embedded `control_garage` produces an empty write trace; the `try` block
that remains contains only `time.sleep(0.5)`, which cannot raise, so the
`except` branch of the source is dead code and is not reachable in the
embedding either.
-/

namespace GarageDoor

/-- Read-only environment: raw sensor reads, configured hostname, clock. -/
structure ServerEnv where
  input : Nat → Nat
  hostname : String
  now : String

/-- `RELAY_PIN_MAPPING = {LEFT : 27, RIGHT: 22}` from the source. -/
def RELAY_PIN_MAPPING : List (String × Nat) := [("LEFT", 27), ("RIGHT", 22)]

/-- `GARAGE_SENSOR_MAPPING = {LEFT: 25, RIGHT: 16}` from the source. -/
def GARAGE_SENSOR_MAPPING : List (String × Nat) := [("LEFT", 25), ("RIGHT", 16)]

/-- The keys of `RELAY_PIN_MAPPING`, i.e. the registered door names. -/
def RELAY_KEYS : List String := RELAY_PIN_MAPPING.map Prod.fst

/-- Code-point lexicographic order on character lists, the order Python
uses to compare strings. -/
def lexLe : List Char → List Char → Bool
  | [], _ => true
  | _ :: _, [] => false
  | a :: as, b :: bs =>
    if a.val < b.val then true
    else if b.val < a.val then false
    else lexLe as bs

/-- Code-point lexicographic order on strings. -/
def strLe (a b : String) : Bool := lexLe a.data b.data

/-- Insert a string into an already sorted list of strings. -/
def insertStr (x : String) : List String → List String
  | [] => [x]
  | y :: ys => if strLe x y then x :: y :: ys else y :: insertStr x ys

/-- Sort a list of strings in code-point lexicographic order, as
`sorted` does for a dictionary of string keys. -/
def sortStrings : List String → List String
  | [] => []
  | x :: xs => insertStr x (sortStrings xs)

/-- `SORTED_KEYS = [k for k in sorted(RELAY_PIN_MAPPING)]`: the registry
keys in lexicographic order. -/
def SORTED_KEYS : List String := sortStrings RELAY_KEYS

/-- Embedding of `get_garage_status(garage_name)`: returns the pair
`(garage_status, error)`.  A failed dictionary lookup is the `KeyError`
branch of the source. -/
def get_garage_status (env : ServerEnv) (garage_name : String) : String × Bool :=
  match List.lookup garage_name GARAGE_SENSOR_MAPPING with
  | none => ("INVALID GARAGE NAME", true)
  | some pin =>
    let pin_result := env.input pin
    if pin_result = 0 then ("CLOSED", false)
    else if pin_result = 1 then ("OPEN", false)
    else ("UNKNOWN", true)

/-- Result of `control_garage`: the returned `(message, action_error)`
pair together with the trace of `GPIO.output` calls performed. -/
structure ControlOutcome where
  message : String
  error : Bool
  relayWrites : List (Nat × Bool)
  deriving DecidableEq, Repr

/-- Embedding of `control_garage(garage_name, action)`.  The relay
`GPIO.output` lines of the source are commented out, so the success
branch performs no write and the `try` block (a bare `time.sleep`)
cannot fail. -/
def control_garage (env : ServerEnv) (garage_name action : String) : ControlOutcome :=
  if garage_name ∉ RELAY_KEYS then
    { message := "INVALID GARAGE_NAME", error := true, relayWrites := [] }
  else if action ∉ ["OPEN", "CLOSE"] then
    { message := "INVALID ACTION", error := true, relayWrites := [] }
  else
    let current_garage_status := (get_garage_status env garage_name).1
    if current_garage_status = "OPEN" ∧ action = "OPEN" then
      { message := "Trying to open garage that is already open", error := true, relayWrites := [] }
    else if current_garage_status = "CLOSED" ∧ action = "CLOSE" then
      { message := "Trying to close garage that is already closed", error := true, relayWrites := [] }
    else
      { message := "TRIGGERED " ++ garage_name ++ " GARAGE TO " ++ action ++
          ". OLD POSITION: " ++ current_garage_status,
        error := false, relayWrites := [] }

/-- A JSON scalar as it appears in the response dictionaries. -/
inductive JVal
  | s (v : String)
  | b (v : Bool)
  deriving DecidableEq, Repr

/-- `str.lower()` of Python: every character lower-cased. -/
def pyLower (s : String) : String :=
  String.mk (s.data.map Char.toLower)

/-- `str.capitalize()` of Python: first character upper-cased, the rest
lower-cased. -/
def pyCapitalize (s : String) : String :=
  match s.data with
  | [] => ""
  | c :: cs => String.mk (c.toUpper :: cs.map Char.toLower)

/-- The per-door dictionary built in the loop body of
`get_garage_json_status`, in insertion order. -/
def mkStatusRecord (env : ServerEnv) (one_garage : String) : List (String × JVal) :=
  let r := get_garage_status env one_garage
  let garage_status := r.1
  let error := r.2
  [("plugin_output", .s ("Garage is " ++ garage_status)),
   ("service_description", .s (pyCapitalize one_garage ++ " Garage Status")),
   ("hostname", .s env.hostname),
   ("return_code", .s (if garage_status = "CLOSED" then "0" else "2")),
   ("garage_name", .s one_garage),
   ("status_time", .s env.now),
   ("status", .s garage_status),
   ("error", .b error)]

/-- `{k: d[k] for k in limit_keys if k in d}` when `limit_keys` is not
`None`, the identity otherwise. -/
def limitKeysFilter (limit_keys : Option (List String)) (pairs : List (String × JVal)) :
    List (String × JVal) :=
  match limit_keys with
  | none => pairs
  | some ks => ks.filterMap (fun k => (List.lookup k pairs).map (fun v => (k, v)))

/-- Embedding of `get_garage_json_status(garage_name, limit_keys)`: the
list of (possibly key-filtered) per-door dictionaries that the source
JSON-serializes. -/
def get_garage_json_status (env : ServerEnv) (garage_name : String)
    (limit_keys : Option (List String)) : List (List (String × JVal)) :=
  let names := if pyLower garage_name = "all" then SORTED_KEYS else [garage_name]
  names.map (fun one_garage => limitKeysFilter limit_keys (mkStatusRecord env one_garage))

/-- Result of `garage_control_json`: the (possibly key-filtered)
response dictionary plus the relay write trace of the underlying
`control_garage` call. -/
structure ControlJsonResult where
  pairs : List (String × JVal)
  relayWrites : List (Nat × Bool)
  deriving DecidableEq, Repr

/-- Embedding of `garage_control_json(garage_name, current_status,
limit_keys)`.  Note that `current_status` is passed positionally to
`control_garage` as its `action` parameter. -/
def garage_control_json (env : ServerEnv) (garage_name current_status : String)
    (limit_keys : Option (List String)) : ControlJsonResult :=
  let r := control_garage env garage_name current_status
  { pairs := limitKeysFilter limit_keys
      [("status_time", .s env.now), ("status", .s r.message), ("error", .b r.error)],
    relayWrites := r.relayWrites }

/-- The decoded inner payload `json.loads(data[Message])`.  The
`current_status` key is only looked up in the CONTROL branch and may be
absent, hence `Option`. -/
structure SNSInnerMessage where
  type : String
  garage_name : String
  current_status : Option String
  deriving DecidableEq, Repr

/-- The decoded webhook envelope `json.loads(request.data)`.  `Message`
is the decode result of the inner payload string: `none` models an
inner string that is not valid JSON, in which case
`json.loads(data.Message)` raises. -/
structure SNSData where
  «Type» : String
  SubscribeURL : Option String
  MessageId : String
  Message : Option SNSInnerMessage
  deriving DecidableEq, Repr

/-- Runtime exceptions the dispatcher can raise.  `nameError` models the
evaluation of the global name `response_keys`, which is referenced at
the STATUS and CONTROL call sites of `process_sns_message` but defined
nowhere in the module. -/
inductive PyError
  | nameError
  | keyError
  | jsonDecodeError
  deriving DecidableEq, Repr

/-- The `response` dictionary that `process_sns_message` prints (the
reply envelope handed to the publisher; the `queue.send_message` line is
commented out in the source).  Its `status` key is only ever assigned in
the STATUS branch, which raises before the assignment completes. -/
structure SNSReply where
  id : String
  status : Option String
  deriving DecidableEq, Repr

/-- Embedding of `SNSCallbackResource.process_sns_message(data)`.

Mirrors the source line by line: it reads `MessageId`, decodes the inner
`Message`, and branches on the inner `type`.  In the STATUS branch the
source evaluates `response_keys` as an argument of
`get_garage_json_status`; that global is never defined, so a `NameError`
is raised before the call happens.  The CONTROL branch first reads
`current_status` from the inner message (`KeyError` when absent) and
then evaluates the same undefined `response_keys`, so it too raises.
Only the fallback branch runs to completion; it stores its payload in
the local `return_message`, which is discarded, so the reply envelope
it produces carries only the truncated id. -/
def process_sns_message (_env : ServerEnv) (data : SNSData) :
    Except PyError SNSReply :=
  let message_id := data.MessageId
  match data.Message with
  | none => .error .jsonDecodeError
  | some raw_message =>
    let action_type := raw_message.type
    if action_type = "STATUS" then
      .error .nameError
    else if action_type = "CONTROL" then
      match raw_message.current_status with
      | none => .error .keyError
      | some _current_status => .error .nameError
    else
      .ok { id := message_id.take 4, status := none }

/-- Result of a webhook POST that returned normally: the HTTP body, the
list of URLs fetched with `requests.get`, and the reply envelope printed
by `process_sns_message` (if that ran). -/
structure PostResult where
  body : String
  fetchedURLs : List String
  published : Option SNSReply
  deriving DecidableEq, Repr

/-- Embedding of `SNSCallbackResource.post`.  The handler argument is
the decode result of the request body: `none` models a body on which
`json.loads` raises; that exception is caught by the `try`/`except` and
only logged.  Exceptions raised by `process_sns_message` happen outside
the `try` block and escape the handler. -/
def SNSCallbackResource_post (env : ServerEnv) (body : Option SNSData) :
    Except PyError PostResult :=
  match body with
  | none =>
    .ok { body := "OK\n", fetchedURLs := [], published := none }
  | some data =>
    if data.«Type» = "SubscriptionConfirmation" ∧ data.SubscribeURL.isSome then
      .ok { body := "OK\n", fetchedURLs := data.SubscribeURL.toList, published := none }
    else if data.«Type» = "Notification" then
      match process_sns_message env data with
      | .ok reply => .ok { body := "OK\n", fetchedURLs := [], published := some reply }
      | .error e => .error e
    else
      .ok { body := "OK\n", fetchedURLs := [], published := none }

/-! Concrete environments used by the witnesses below.  `envW` has the
LEFT sensor (pin 25) reading 0 and the RIGHT sensor (pin 16) reading 1;
`envU` has every sensor reading the out-of-range value 7. -/

/-- Environment with LEFT closed (pin 25 reads 0) and RIGHT open
(pin 16 reads 1). -/
def envW : ServerEnv :=
  { input := fun p => if p = 16 then 1 else 0,
    hostname := "garagehost",
    now := "2020-01-01 01:02:03 AM" }

/-- Environment in which every sensor returns the out-of-range raw
value 7. -/
def envU : ServerEnv :=
  { input := fun _ => 7,
    hostname := "garagehost",
    now := "2020-01-01 01:02:03 AM" }

/-- A STATUS notification for door LEFT, as decoded from a webhook
body. -/
def statusNotifLEFT : SNSData :=
  { «Type» := "Notification", SubscribeURL := none, MessageId := "abcd1234",
    Message := some { type := "STATUS", garage_name := "LEFT", current_status := none } }

/-- A CONTROL notification for door LEFT asserting current status
OPEN. -/
def controlNotifLEFT : SNSData :=
  { «Type» := "Notification", SubscribeURL := none, MessageId := "msgid99x",
    Message := some { type := "CONTROL", garage_name := "LEFT", current_status := some "OPEN" } }

/-- A notification whose inner type is neither STATUS nor CONTROL. -/
def otherNotif : SNSData :=
  { «Type» := "Notification", SubscribeURL := none, MessageId := "wxyz9876",
    Message := some { type := "PING", garage_name := "LEFT", current_status := none } }

/-! Helper lemmas shared by the claim theorems. -/

/-- A door whose status read did not fail with the invalid-name status
is one of the two registered doors. -/
theorem status_not_invalid_registered (env : ServerEnv) (name : String)
    (h : (get_garage_status env name).1 ≠ "INVALID GARAGE NAME") :
    name = "LEFT" ∨ name = "RIGHT" := by
  by_cases h1 : name = "LEFT"
  · exact Or.inl h1
  · by_cases h2 : name = "RIGHT"
    · exact Or.inr h2
    · have e1 : (name == "LEFT") = false := by simp [h1]
      have e2 : (name == "RIGHT") = false := by simp [h2]
      exact absurd (by simp [get_garage_status, GARAGE_SENSOR_MAPPING, List.lookup, e1, e2]) h

/-- `get_garage_status` only ever returns one of its four
status/error pairs. -/
theorem get_garage_status_cases (env : ServerEnv) (g : String) :
    get_garage_status env g = ("INVALID GARAGE NAME", true) ∨
    get_garage_status env g = ("CLOSED", false) ∨
    get_garage_status env g = ("OPEN", false) ∨
    get_garage_status env g = ("UNKNOWN", true) := by
  unfold get_garage_status
  cases List.lookup g GARAGE_SENSOR_MAPPING with
  | none => exact Or.inl rfl
  | some pin =>
    by_cases h0 : env.input pin = 0
    · exact Or.inr (Or.inl (by simp [h0]))
    · by_cases h1 : env.input pin = 1
      · exact Or.inr (Or.inr (Or.inl (by simp [h0, h1])))
      · exact Or.inr (Or.inr (Or.inr (by simp [h0, h1])))

/-! Claim theorems. -/

/-- Claim C1: for a door whose current status already equals the
requested action's target state (OPEN with OPEN, or CLOSED with CLOSE),
`control_garage` performs no relay write (zero pulses; the function has
no write channel to the sensors at all, so sensor state is unchanged),
returns the corresponding already-open / already-closed message, and
returns error = true. -/
theorem control_garage_idempotent_noop (env : ServerEnv) (name action : String)
    (h : ((get_garage_status env name).1 = "OPEN" ∧ action = "OPEN") ∨
         ((get_garage_status env name).1 = "CLOSED" ∧ action = "CLOSE")) :
    control_garage env name action =
      { message := if action = "OPEN" then "Trying to open garage that is already open"
                   else "Trying to close garage that is already closed",
        error := true, relayWrites := [] } := by
  have hreg : name = "LEFT" ∨ name = "RIGHT" := by
    apply status_not_invalid_registered env name
    rcases h with ⟨hs, _⟩ | ⟨hs, _⟩ <;> simp [hs]
  rcases h with ⟨hs, ha⟩ | ⟨hs, ha⟩ <;> subst ha <;>
    rcases hreg with hn | hn <;> subst hn <;>
      simp [control_garage, RELAY_KEYS, RELAY_PIN_MAPPING, hs]

/-- Witness for C1: controlling LEFT with CLOSE while LEFT reads CLOSED
rejects with the already-closed message, error = true and no relay
write. -/
theorem control_garage_idempotent_noop_witness :
    control_garage envW "LEFT" "CLOSE" =
      { message := "Trying to close garage that is already closed",
        error := true, relayWrites := [] } := by
  have h := control_garage_idempotent_noop envW "LEFT" "CLOSE" (Or.inr ⟨by decide, rfl⟩)
  simpa using h

/-- Claim C2 (code bug): controlling RIGHT with CLOSE while RIGHT reads
OPEN returns error = false and the message reporting old position OPEN
and action CLOSE, but the relay write trace is empty: the
`GPIO.output` lines of the success branch are commented out in the
source, so no actuator pulse happens although the claim (and the
message text) promise exactly one. -/
theorem control_garage_success_message_without_pulse :
    control_garage envW "RIGHT" "CLOSE" =
      { message := "TRIGGERED RIGHT GARAGE TO CLOSE. OLD POSITION: OPEN",
        error := false, relayWrites := [] } := by decide

/-- Claim C3: for a registered door, `get_garage_status` maps a raw
sensor reading of 0 to (CLOSED, error = false), 1 to (OPEN,
error = false), and anything else to (UNKNOWN, error = true). -/
theorem get_garage_status_sensor_classification (env : ServerEnv) (name : String) (pin : Nat)
    (hpin : List.lookup name GARAGE_SENSOR_MAPPING = some pin) :
    (env.input pin = 0 → get_garage_status env name = ("CLOSED", false)) ∧
    (env.input pin = 1 → get_garage_status env name = ("OPEN", false)) ∧
    (env.input pin ≠ 0 → env.input pin ≠ 1 →
      get_garage_status env name = ("UNKNOWN", true)) := by
  unfold get_garage_status
  rw [hpin]
  exact ⟨fun h0 => by simp [h0],
         fun h1 => by simp [h1],
         fun h0 h1 => by simp [h0, h1]⟩

/-- Witness for C3 at the three kinds of raw reading: LEFT reads 0 in
`envW`, RIGHT reads 1 in `envW`, LEFT reads 7 in `envU`. -/
theorem get_garage_status_sensor_classification_witness :
    get_garage_status envW "LEFT" = ("CLOSED", false) ∧
    get_garage_status envW "RIGHT" = ("OPEN", false) ∧
    get_garage_status envU "LEFT" = ("UNKNOWN", true) :=
  ⟨(get_garage_status_sensor_classification envW "LEFT" 25 (by decide)).1 (by decide),
   (get_garage_status_sensor_classification envW "RIGHT" 16 (by decide)).2.1 (by decide),
   (get_garage_status_sensor_classification envU "LEFT" 25 (by decide)).2.2
     (by decide) (by decide)⟩

/-- Claim C4: an unregistered door name makes `get_garage_status`
return the invalid-name status with error = true and makes
`control_garage` return the INVALID GARAGE_NAME message with
error = true for every action (so the name check precedes the action
check); a registered name with an action outside OPEN/CLOSE returns
INVALID ACTION with error = true; neither rejection performs a relay
write. -/
theorem invalid_name_and_action_rejection (env : ServerEnv) (name action : String) :
    (name ∉ RELAY_KEYS →
      get_garage_status env name = ("INVALID GARAGE NAME", true) ∧
      control_garage env name action =
        { message := "INVALID GARAGE_NAME", error := true, relayWrites := [] }) ∧
    (name ∈ RELAY_KEYS → action ∉ ["OPEN", "CLOSE"] →
      control_garage env name action =
        { message := "INVALID ACTION", error := true, relayWrites := [] }) := by
  constructor
  · intro hname
    have h1 : name ≠ "LEFT" := by
      intro h; exact hname (by simp [RELAY_KEYS, RELAY_PIN_MAPPING, h])
    have h2 : name ≠ "RIGHT" := by
      intro h; exact hname (by simp [RELAY_KEYS, RELAY_PIN_MAPPING, h])
    have e1 : (name == "LEFT") = false := by simp [h1]
    have e2 : (name == "RIGHT") = false := by simp [h2]
    exact ⟨by simp [get_garage_status, GARAGE_SENSOR_MAPPING, List.lookup, e1, e2],
           by simp [control_garage, hname]⟩
  · intro hname haction
    simp [control_garage, hname, haction]

/-- Witness for C4: the unknown name DOG is rejected by both readers,
and the registered name LEFT with the invalid action JUMP is rejected
with INVALID ACTION. -/
theorem invalid_name_and_action_rejection_witness :
    (get_garage_status envW "DOG" = ("INVALID GARAGE NAME", true) ∧
      control_garage envW "DOG" "OPEN" =
        { message := "INVALID GARAGE_NAME", error := true, relayWrites := [] }) ∧
    control_garage envW "LEFT" "JUMP" =
      { message := "INVALID ACTION", error := true, relayWrites := [] } :=
  ⟨(invalid_name_and_action_rejection envW "DOG" "OPEN").1 (by decide),
   (invalid_name_and_action_rejection envW "LEFT" "JUMP").2 (by decide) (by decide)⟩

/-- Claim C5: a status query for ALL expands to the registered doors in
lexicographic order, and with LEFT reading 0 and RIGHT reading 1 it
returns two records in order LEFT then RIGHT with return_code 0 for
LEFT and 2 for RIGHT. -/
theorem status_all_expands_sorted (env : ServerEnv)
    (h25 : env.input 25 = 0) (h16 : env.input 16 = 1) :
    SORTED_KEYS = ["LEFT", "RIGHT"] ∧ strLe "LEFT" "RIGHT" = true ∧
    get_garage_json_status env "ALL" none =
      [[("plugin_output", .s "Garage is CLOSED"),
        ("service_description", .s "Left Garage Status"),
        ("hostname", .s env.hostname), ("return_code", .s "0"),
        ("garage_name", .s "LEFT"), ("status_time", .s env.now),
        ("status", .s "CLOSED"), ("error", .b false)],
       [("plugin_output", .s "Garage is OPEN"),
        ("service_description", .s "Right Garage Status"),
        ("hostname", .s env.hostname), ("return_code", .s "2"),
        ("garage_name", .s "RIGHT"), ("status_time", .s env.now),
        ("status", .s "OPEN"), ("error", .b false)]] := by
  have hL : get_garage_status env "LEFT" = ("CLOSED", false) := by
    simp [get_garage_status, GARAGE_SENSOR_MAPPING, List.lookup, h25]
  have hR : get_garage_status env "RIGHT" = ("OPEN", false) := by
    simp [get_garage_status, GARAGE_SENSOR_MAPPING, List.lookup, h16]
  refine ⟨by decide, by decide, ?_⟩
  have hexp : get_garage_json_status env "ALL" none =
      [mkStatusRecord env "LEFT", mkStatusRecord env "RIGHT"] := rfl
  rw [hexp]
  simp [mkStatusRecord, hL, hR, pyCapitalize]

/-- Witness for C5 in the concrete environment `envW`, where LEFT reads
0 and RIGHT reads 1. -/
theorem status_all_expands_sorted_witness :
    SORTED_KEYS = ["LEFT", "RIGHT"] ∧ strLe "LEFT" "RIGHT" = true ∧
    get_garage_json_status envW "ALL" none =
      [[("plugin_output", .s "Garage is CLOSED"),
        ("service_description", .s "Left Garage Status"),
        ("hostname", .s envW.hostname), ("return_code", .s "0"),
        ("garage_name", .s "LEFT"), ("status_time", .s envW.now),
        ("status", .s "CLOSED"), ("error", .b false)],
       [("plugin_output", .s "Garage is OPEN"),
        ("service_description", .s "Right Garage Status"),
        ("hostname", .s envW.hostname), ("return_code", .s "2"),
        ("garage_name", .s "RIGHT"), ("status_time", .s envW.now),
        ("status", .s "OPEN"), ("error", .b false)]] :=
  status_all_expands_sorted envW (by decide) (by decide)

/-- Claim C6 (code bug): a STATUS notification for LEFT does not yield
a reply envelope at all: the source evaluates the undefined global name
response_keys and raises NameError, which escapes the POST handler.
The only notification kind that completes, an unrecognized inner type,
produces an envelope holding only the truncated message id, with its
status payload left in the discarded local return_message. -/
theorem status_notification_no_reply :
    SNSCallbackResource_post envW (some statusNotifLEFT) = .error .nameError ∧
    process_sns_message envW otherNotif = .ok { id := "wxyz", status := none } :=
  ⟨rfl, rfl⟩

/-- Claim C7: in every record a status query builds, the error field is
true exactly when the status field is UNKNOWN or the invalid-name
status, and a CLOSED or OPEN status comes with error = false. -/
theorem status_record_error_flag_invariant (env : ServerEnv) (g : String) :
    (List.lookup "error" (mkStatusRecord env g) = some (.b true) ↔
      (List.lookup "status" (mkStatusRecord env g) = some (.s "UNKNOWN") ∨
       List.lookup "status" (mkStatusRecord env g) = some (.s "INVALID GARAGE NAME"))) ∧
    ((List.lookup "status" (mkStatusRecord env g) = some (.s "CLOSED") ∨
      List.lookup "status" (mkStatusRecord env g) = some (.s "OPEN")) →
     List.lookup "error" (mkStatusRecord env g) = some (.b false)) := by
  have he : List.lookup "error" (mkStatusRecord env g) =
      some (.b (get_garage_status env g).2) := rfl
  have hs : List.lookup "status" (mkStatusRecord env g) =
      some (.s (get_garage_status env g).1) := rfl
  rw [he, hs]
  rcases get_garage_status_cases env g with h | h | h | h <;> rw [h] <;> simp

/-- Witness for C7: LEFT reads CLOSED in `envW`, so its record carries
error = false. -/
theorem status_record_error_flag_invariant_witness :
    List.lookup "error" (mkStatusRecord envW "LEFT") = some (.b false) :=
  (status_record_error_flag_invariant envW "LEFT").2 (Or.inl (by decide))

/-- Claim C8: a POST body on which the JSON decode raises is swallowed
by the handler: no exception escapes, no URL is fetched, no reply is
produced, and the handler still returns the plain-text acknowledgement
(the string OK followed by a newline), in every environment. -/
theorem post_decode_failure_swallowed (env : ServerEnv) :
    SNSCallbackResource_post env none =
      .ok { body := "OK\n", fetchedURLs := [], published := none } := rfl

/-- Claim C9 (code bug): a CONTROL notification never reaches the
control operation: the source evaluates the undefined global name
response_keys while building the arguments of garage_control_json and
raises NameError, so current_status is never passed on as the action
and no success/fail mapping happens. -/
theorem control_notification_no_dispatch :
    SNSCallbackResource_post envW (some controlNotifLEFT) = .error .nameError := rfl

/-- Claim C10: a registered door whose sensor reads a value outside 0/1
(status UNKNOWN) is never blocked by the idempotency guard: for either
valid action, `control_garage` takes the actuation branch and returns
error = false with a message reporting old position UNKNOWN. -/
theorem control_garage_unknown_status_triggers (env : ServerEnv) (name action : String)
    (pin : Nat) (hpin : List.lookup name GARAGE_SENSOR_MAPPING = some pin)
    (h0 : env.input pin ≠ 0) (h1 : env.input pin ≠ 1)
    (ha : action = "OPEN" ∨ action = "CLOSE") :
    control_garage env name action =
      { message := "TRIGGERED " ++ name ++ " GARAGE TO " ++ action ++
          ". OLD POSITION: UNKNOWN",
        error := false, relayWrites := [] } := by
  have hst : get_garage_status env name = ("UNKNOWN", true) := by
    unfold get_garage_status
    rw [hpin]
    simp [h0, h1]
  have hreg : name = "LEFT" ∨ name = "RIGHT" := by
    apply status_not_invalid_registered env name
    rw [hst]
    decide
  rcases hreg with hn | hn <;> subst hn <;> rcases ha with h | h <;> subst h <;>
    simp [control_garage, RELAY_KEYS, RELAY_PIN_MAPPING, hst]

/-- Witness for C10: in `envU` every sensor reads 7, and opening LEFT
triggers with old position UNKNOWN. -/
theorem control_garage_unknown_status_triggers_witness :
    control_garage envU "LEFT" "OPEN" =
      { message := "TRIGGERED LEFT GARAGE TO OPEN. OLD POSITION: UNKNOWN",
        error := false, relayWrites := [] } :=
  control_garage_unknown_status_triggers envU "LEFT" "OPEN" 25
    (by decide) (by decide) (by decide) (Or.inl rfl)

end GarageDoor
